import Mathlib

/-!
Shallow embedding of `generate_gameindex.py` (function `generate_game_files`),
the game-record assembler of the `legacy_pbp` repository.

Tabular data (pandas DataFrames) is modelled as lists of typed rows; the
file system is modelled as finite functions from game id to file content.
A missing CSV cell (pandas `NaN`) is modelled as `Option.none` where the code
tests for it (`dropna`, `notna`, `int(...)` on a possibly-NaN cell).
The numeric `IN_TIME_REAL` column is modelled as `Rat`; the code only tests
it for exact equality with `0.0`, which `Rat` equality reflects.
An exception that escapes the per-game loop body is modelled as
`Except.error`; exceptions caught by the code's `try/except` blocks are
modelled by the corresponding skip/`none` results.
-/

/-- One row of the concatenated rotation table (`rotation_df`), with the
columns `generate_game_files` reads: `GAME_ID`, `TEAM_ID`, `TEAM_NAME`,
`PERSON_ID`, `PLAYER_FIRST`, `PLAYER_LAST`, `IN_TIME_REAL`.
Game ids are kept as strings because the code compares
`rotation_df["GAME_ID"].astype(str) == str(game_id)`. -/
structure RotRow where
  game_id : String
  team_id : Int
  team_name : String
  person_id : Int
  player_first : String
  player_last : String
  in_time_real : Rat
  deriving DecidableEq

/-- One row of the game-dates table (`dates_df`), with the columns the code
reads: `GAME_ID`, `date`, `team`, `HTM`, `TEAM_ID`. -/
structure DatesRow where
  game_id : String
  date : String
  team : String
  htm : String
  team_id : Int
  deriving DecidableEq

/-- One row of a play-by-play CSV, restricted to the columns the code reads:
`HOMEDESCRIPTION` (`none` models NaN, tested with `notna`),
`PLAYER1_TEAM_ID` (`none` models NaN, on which `int(...)` raises),
`SCORE` (`none` models NaN, removed by `dropna`). -/
structure PbpRow where
  homedescription : Option String
  player1_team_id : Option Int
  score : Option String
  deriving DecidableEq

/-- The state of the play-by-play file `pbp_dir/{game_id}.csv`:
absent (`os.path.exists` is false), present but raising on `pd.read_csv`,
or successfully read as a list of rows. -/
inductive PbpFile where
  | missing : PbpFile
  | unreadable : PbpFile
  | ok (rows : List PbpRow) : PbpFile
  deriving DecidableEq

/-- The environment of one run of `generate_game_files`: the two input
tables and the file system (play-by-play files keyed by game id, and the
existence test for `output_dir/{game_id}.json`). -/
structure Env where
  rotation_df : List RotRow
  dates_df : List DatesRow
  pbp : String → PbpFile
  outputExists : String → Bool

/-- Worker for `dedupFirst`: drop the elements already seen. -/
def dedupFirstAux {α : Type} [DecidableEq α] (seen : List α) : List α → List α
  | [] => []
  | x :: xs =>
    if x ∈ seen then dedupFirstAux seen xs
    else x :: dedupFirstAux (x :: seen) xs

/-- Keep the first occurrence of each element, dropping later duplicates:
the semantics of pandas `Series.unique()` and `DataFrame.drop_duplicates()`,
both of which preserve first-occurrence order. -/
def dedupFirst {α : Type} [DecidableEq α] (l : List α) : List α :=
  dedupFirstAux [] l

/-- Strip leading and trailing whitespace, as Python's `int` does before
parsing its string argument. -/
def stripChars (l : List Char) : List Char :=
  ((l.dropWhile Char.isWhitespace).reverse.dropWhile Char.isWhitespace).reverse

/-- Decimal value of a list of digit characters. -/
def digitsVal (ds : List Char) : Nat :=
  ds.foldl (fun a c => a * 10 + (c.toNat - 48)) 0

/-- Parser core of Python's `int(s)`: an optional sign followed by one or
more decimal digits. -/
def pyIntChars : List Char → Option Int
  | '-' :: ds =>
      if ds ≠ [] ∧ ds.all Char.isDigit then some (-(digitsVal ds : Int)) else none
  | '+' :: ds =>
      if ds ≠ [] ∧ ds.all Char.isDigit then some ((digitsVal ds : Int)) else none
  | ds =>
      if ds ≠ [] ∧ ds.all Char.isDigit then some ((digitsVal ds : Int)) else none

/-- Python's built-in `int(s)` on a decimal string: surrounding whitespace is
stripped, an optional sign is allowed, and the rest must be one or more
digits; `none` models the `ValueError` it otherwise raises.
(Underscore digit separators, accepted by Python between digits, are not
modelled; no claim depends on them.) -/
def pyInt (s : String) : Option Int :=
  pyIntChars (stripChars s.data)

/-- Split off the text before the first occurrence of `sep`, returning it
together with the remainder after that occurrence; `none` when `sep` does
not occur. -/
def findSplit (sep : List Char) : List Char → Option (List Char × List Char)
  | [] => none
  | c :: cs =>
    if sep.isPrefixOf (c :: cs) then some ([], (c :: cs).drop sep.length)
    else
      match findSplit sep cs with
      | some (pre, rest) => some (c :: pre, rest)
      | none => none

/-- Fuel-indexed worker for `pySplit`: repeatedly split at the next
occurrence of the separator. Each step removes at least the (non-empty)
separator from the remainder, so a fuel of one more than the input length
never runs out. -/
def splitListAux (sep : List Char) : Nat → List Char → List (List Char)
  | 0, l => [l]
  | fuel + 1, l =>
    match findSplit sep l with
    | none => [l]
    | some (pre, rest) => pre :: splitListAux sep fuel rest

/-- Python's `s.split(sep)` for a non-empty separator: the pieces of `s`
between consecutive non-overlapping occurrences of `sep`, scanned left to
right. -/
def pySplit (s sep : String) : List String :=
  (splitListAux sep.data (s.data.length + 1) s.data).map (fun cs => String.mk cs)

/-- Gregorian leap-year test, as used by Python's datetime. -/
def isLeap (y : Nat) : Bool := (y % 4 == 0 && y % 100 != 0) || (y % 400 == 0)

/-- Number of days in a month of the proleptic Gregorian calendar. -/
def daysInMonth (y m : Nat) : Nat :=
  if m = 2 then (if isLeap y then 29 else 28)
  else if m = 4 ∨ m = 6 ∨ m = 9 ∨ m = 11 then 30
  else 31

/-- `pd.to_datetime(s, format="%Y%m%d").strftime("%Y-%m-%d")`: the string
must be eight digits forming a valid calendar date, and the result inserts
dashes after the year and month. `none` models the `ValueError` raised on
any other input — an exception the surrounding code does not catch.
(The narrower `pd.Timestamp` year range is not modelled; no claim
depends on it.) -/
def dateReformat (s : String) : Option String :=
  let cs := s.data
  if cs.length = 8 ∧ cs.all Char.isDigit then
    let y := digitsVal (cs.take 4)
    let m := digitsVal ((cs.drop 4).take 2)
    let d := digitsVal (cs.drop 6)
    if 1 ≤ m ∧ m ≤ 12 ∧ 1 ≤ d ∧ d ≤ daysInMonth y m then
      some (String.mk (cs.take 4 ++ '-' :: (cs.drop 4).take 2 ++ '-' :: cs.drop 6))
    else none
  else none

/-- `rotation_df[rotation_df["GAME_ID"].astype(str) == str(game_id)]`. -/
def rotationsFor (env : Env) (game_id : String) : List RotRow :=
  env.rotation_df.filter (fun r => r.game_id == game_id)

/-- `dates_df[dates_df["GAME_ID"].astype(str) == str(game_id)]`. -/
def datesFor (env : Env) (game_id : String) : List DatesRow :=
  env.dates_df.filter (fun r => r.game_id == game_id)

/-- Method 1 (primary team resolution): the first row whose `team` equals
`HTM` is the home row, the first row whose `team` differs from `HTM` is the
away row; `none` models the `IndexError` raised by `.iloc[0]` on an empty
selection, which sends the code to the play-by-play fallback. -/
def primaryTeams (game_dates_info : List DatesRow) : Option (Int × Int) :=
  match game_dates_info.find? (fun r => r.team == r.htm),
        game_dates_info.find? (fun r => r.team != r.htm) with
  | some home_team_info, some away_team_info =>
      some (home_team_info.team_id, away_team_info.team_id)
  | _, _ => none

/-- `game_rotations["TEAM_ID"].unique()`. -/
def distinctTeamIds (game_rotations : List RotRow) : List Int :=
  dedupFirst (game_rotations.map (fun r => r.team_id))

/-- Method 2 (play-by-play fallback): the home team id is
`int(PLAYER1_TEAM_ID)` of the first row with a non-null `HOMEDESCRIPTION`;
the away team id is the first rotation team id different from it, taken
only when at least two distinct team ids exist. `none` models every path on
which the code skips the game: missing file, read or lookup exception
(caught by its `except`), a falsy away id (`None` or `0`), or an away id
equal to the home id. -/
def fallbackTeams (env : Env) (game_id : String) (game_rotations : List RotRow) :
    Option (Int × Int) :=
  match env.pbp game_id with
  | PbpFile.missing => none
  | PbpFile.unreadable => none
  | PbpFile.ok rows =>
    match rows.find? (fun r => r.homedescription.isSome) with
    | none => none
    | some home_event =>
      match home_event.player1_team_id with
      | none => none
      | some home_team_id =>
        match (if 2 ≤ (distinctTeamIds game_rotations).length then
                 ((distinctTeamIds game_rotations).filter
                   (fun t => t != home_team_id)).head?
               else none) with
        | none => none
        | some away_team_id =>
          if away_team_id = 0 ∨ home_team_id = away_team_id then none
          else some (home_team_id, away_team_id)

/-- Team resolution: the primary dates-table path, falling back to the
play-by-play heuristic exactly when the primary lookup raises
(`except (IndexError, KeyError)`). -/
def resolveTeams (env : Env) (game_id : String) (game_rotations : List RotRow)
    (game_dates_info : List DatesRow) : Option (Int × Int) :=
  match primaryTeams game_dates_info with
  | some p => some p
  | none => fallbackTeams env game_id game_rotations

/-- Lines 146–157: final-score extraction, entirely inside `try/except`.
Take the last non-null `SCORE` value, split it on `" - "`, and parse the two
halves with `int`; on a missing file, a read failure, no non-null score, a
split of length other than two, or an `int` failure, both scores stay
`None` (the tuple assignment binds neither name if either `int` raises). -/
def extractScore (file : PbpFile) : Option Int × Option Int :=
  match file with
  | PbpFile.missing => (none, none)
  | PbpFile.unreadable => (none, none)
  | PbpFile.ok rows =>
    match (rows.filterMap PbpRow.score).getLast? with
    | none => (none, none)
    | some s =>
      match pySplit s " - " with
      | [a, b] =>
        match pyInt a, pyInt b with
        | some home_score, some away_score => (some home_score, some away_score)
        | _, _ => (none, none)
      | _ => (none, none)

/-- `name_dict`: deduplicated `(PERSON_ID, PLAYER_FIRST, PLAYER_LAST)`
triples mapped to `str(PERSON_ID) ↦ "FIRST LAST"`, in first-occurrence
order. (The Python dict collapses a repeated key onto one entry; the key
set, which the claims are about, is unchanged by that collapse.) -/
def playersMap (game_rotations : List RotRow) : List (String × String) :=
  (dedupFirst (game_rotations.map
      (fun r => (r.person_id, r.player_first, r.player_last)))).map
    (fun t => (toString t.1, t.2.1 ++ " " ++ t.2.2))

/-- `starters = game_rotations[game_rotations["IN_TIME_REAL"] == 0.0]`. -/
def startersOf (game_rotations : List RotRow) : List RotRow :=
  game_rotations.filter (fun r => r.in_time_real == 0)

/-- `starter_on = ','.join(starters["PERSON_ID"].astype(str).tolist())`. -/
def starterOn (game_rotations : List RotRow) : String :=
  String.intercalate "," ((startersOf game_rotations).map (fun r => toString r.person_id))

/-- The nested `homeTeam`/`awayTeam` object of the emitted record. -/
structure TeamOut where
  name : String
  score : Option Int
  logo : String
  deriving DecidableEq

/-- The `game_output` dict of lines 164–173: its keys are exactly the fields
of this structure laid out in the source order. -/
structure GameRecord where
  homeTeam : TeamOut
  awayTeam : TeamOut
  game_id : String
  date : String
  status : String
  players : List (String × String)
  starter_on : String
  deriving DecidableEq

/-- `https://cdn.nba.com/logos/nba/<team_id>/primary/L/logo.svg`. -/
def logoUrl (team_id : Int) : String :=
  "https://cdn.nba.com/logos/nba/" ++ toString team_id ++ "/primary/L/logo.svg"

/-- Assembly of `game_output` from the resolved data. -/
def buildRecord (game_id date : String) (home_team_details away_team_details : RotRow)
    (home_team_id away_team_id : Int) (home_score away_score : Option Int)
    (game_rotations : List RotRow) : GameRecord :=
  { homeTeam := { name := home_team_details.team_name, score := home_score,
                  logo := logoUrl home_team_id },
    awayTeam := { name := away_team_details.team_name, score := away_score,
                  logo := logoUrl away_team_id },
    game_id := game_id,
    date := date,
    status := "Final",
    players := playersMap game_rotations,
    starter_on := starterOn game_rotations }

/-- Observable result of one iteration of the per-game loop. -/
inductive Outcome where
  | skippedExists : Outcome
  | skippedNoRotation : Outcome
  | skippedNoDates : Outcome
  | skippedTeams : Outcome
  | skippedNoDetails : Outcome
  | emitted (rec : GameRecord) : Outcome
  deriving DecidableEq

/-- One iteration of the loop body of `generate_game_files` (lines 81–177)
for a single game id. `Except.error` models an exception that escapes the
loop body: the only such exception reachable in this model is the
`pd.to_datetime` parse failure at line 169, which sits outside every
`try/except`. The skip-if-exists test precedes every data lookup, the
rotation and dates lookups precede team resolution, the `not home/away`
truthiness test of line 135 treats the id `0` as missing, and score
extraction cannot fail (its exceptions are caught). -/
def processGame (env : Env) (game_id : String) : Except String Outcome :=
  if env.outputExists game_id then Except.ok Outcome.skippedExists
  else if (rotationsFor env game_id).isEmpty then Except.ok Outcome.skippedNoRotation
  else match (datesFor env game_id).head? with
  | none => Except.ok Outcome.skippedNoDates
  | some firstDateRow =>
    match resolveTeams env game_id (rotationsFor env game_id) (datesFor env game_id) with
    | none => Except.ok Outcome.skippedTeams
    | some (home_team_id, away_team_id) =>
      if home_team_id = 0 ∨ away_team_id = 0 then Except.ok Outcome.skippedTeams
      else match (rotationsFor env game_id).find? (fun r => r.team_id == home_team_id),
                 (rotationsFor env game_id).find? (fun r => r.team_id == away_team_id) with
      | some home_team_details, some away_team_details =>
        match dateReformat firstDateRow.date with
        | none => Except.error ("time data " ++ firstDateRow.date ++ " does not match format")
        | some date =>
          Except.ok (Outcome.emitted
            (buildRecord game_id date home_team_details away_team_details
              home_team_id away_team_id
              (extractScore (env.pbp game_id)).1 (extractScore (env.pbp game_id)).2
              (rotationsFor env game_id)))
      | _, _ => Except.ok Outcome.skippedNoDetails

/-- The batch loop over a list of game ids: each game is processed in order;
an outcome is recorded per game, and an uncaught exception terminates the
loop, leaving the remaining game ids unprocessed. -/
def runGames (env : Env) : List String → List (String × Outcome) × Option String
  | [] => ([], none)
  | game_id :: rest =>
    match processGame env game_id with
    | Except.ok o => ((game_id, o) :: (runGames env rest).1, (runGames env rest).2)
    | Except.error e => ([], some e)

/-- `dates_df["GAME_ID"].unique()`. -/
def gameIds (env : Env) : List String :=
  dedupFirst (env.dates_df.map (fun r => r.game_id))

/-- `generate_game_files`: iterate the loop body over the unique game ids of
the dates table. The first component lists the per-game outcomes in
processing order; the second is `some` exactly when an uncaught exception
terminated the batch. -/
def generate_game_files (env : Env) : List (String × Outcome) × Option String :=
  runGames env (gameIds env)

deriving instance DecidableEq for Except

/-! ### Concrete environments used by witnesses and counterexamples -/

/-- A healthy run: one game `"A"`, resolvable from the dates table, with a
play-by-play file whose last score reads `"102 - 98"`. -/
def envMain : Env :=
  { rotation_df :=
      [ { game_id := "A", team_id := 10, team_name := "Celtics", person_id := 1,
          player_first := "Al", player_last := "Ames", in_time_real := 0 },
        { game_id := "A", team_id := 10, team_name := "Celtics", person_id := 2,
          player_first := "Bo", player_last := "Beck", in_time_real := 5 },
        { game_id := "A", team_id := 20, team_name := "Knicks", person_id := 3,
          player_first := "Cy", player_last := "Cole", in_time_real := 0 } ],
    dates_df :=
      [ { game_id := "A", date := "20240110", team := "BOS", htm := "BOS", team_id := 10 },
        { game_id := "A", date := "20240110", team := "NYK", htm := "BOS", team_id := 20 } ],
    pbp := fun g =>
      if g == "A" then
        PbpFile.ok
          [ { homedescription := some "Jump ball", player1_team_id := some 10, score := none },
            { homedescription := none, player1_team_id := none, score := some "102 - 98" } ]
      else PbpFile.missing,
    outputExists := fun _ => false }

/-- The record `generate_game_files` emits for game `"A"` of `envMain`. -/
def recMain : GameRecord :=
  { homeTeam := { name := "Celtics", score := some 102,
                  logo := "https://cdn.nba.com/logos/nba/10/primary/L/logo.svg" },
    awayTeam := { name := "Knicks", score := some 98,
                  logo := "https://cdn.nba.com/logos/nba/20/primary/L/logo.svg" },
    game_id := "A", date := "2024-01-10", status := "Final",
    players := [("1", "Al Ames"), ("2", "Bo Beck"), ("3", "Cy Cole")],
    starter_on := "1,3" }

/-- `envMain` with its play-by-play directory empty. -/
def envMainNoPbp : Env :=
  { envMain with pbp := fun _ => PbpFile.missing }

/-- A batch of two games in which the first game's dates-table date string
is not in `YYYYMMDD` form while everything else about both games is
well-formed. -/
def envBadDate : Env :=
  { rotation_df :=
      [ { game_id := "A", team_id := 10, team_name := "Celtics", person_id := 1,
          player_first := "Al", player_last := "Ames", in_time_real := 0 },
        { game_id := "A", team_id := 20, team_name := "Knicks", person_id := 2,
          player_first := "Bo", player_last := "Beck", in_time_real := 0 },
        { game_id := "B", team_id := 30, team_name := "Bulls", person_id := 3,
          player_first := "Cy", player_last := "Cole", in_time_real := 0 },
        { game_id := "B", team_id := 40, team_name := "Heat", person_id := 4,
          player_first := "Di", player_last := "Dunn", in_time_real := 0 } ],
    dates_df :=
      [ { game_id := "A", date := "XDATE", team := "BOS", htm := "BOS", team_id := 10 },
        { game_id := "A", date := "XDATE", team := "NYK", htm := "BOS", team_id := 20 },
        { game_id := "B", date := "20240102", team := "CHI", htm := "CHI", team_id := 30 },
        { game_id := "B", date := "20240102", team := "MIA", htm := "CHI", team_id := 40 } ],
    pbp := fun _ => PbpFile.missing,
    outputExists := fun _ => false }

/-- A game `"A"` that is absent from the dates table, although it has two
distinct rotation team ids and a play-by-play file with a home-description
row; the dates table only knows game `"B"`. -/
def envNoDates : Env :=
  { rotation_df :=
      [ { game_id := "A", team_id := 10, team_name := "Celtics", person_id := 1,
          player_first := "Al", player_last := "Ames", in_time_real := 0 },
        { game_id := "A", team_id := 20, team_name := "Knicks", person_id := 2,
          player_first := "Bo", player_last := "Beck", in_time_real := 0 },
        { game_id := "B", team_id := 30, team_name := "Bulls", person_id := 3,
          player_first := "Cy", player_last := "Cole", in_time_real := 0 },
        { game_id := "B", team_id := 40, team_name := "Heat", person_id := 4,
          player_first := "Di", player_last := "Dunn", in_time_real := 0 } ],
    dates_df :=
      [ { game_id := "B", date := "20240102", team := "CHI", htm := "CHI", team_id := 30 },
        { game_id := "B", date := "20240102", team := "MIA", htm := "CHI", team_id := 40 } ],
    pbp := fun g =>
      if g == "A" then
        PbpFile.ok
          [ { homedescription := some "Jump ball", player1_team_id := some 10, score := none } ]
      else PbpFile.missing,
    outputExists := fun _ => false }

/-- A game `"A"` that is present in the dates table but whose rows never
satisfy `team == HTM`, so the primary lookup raises and the play-by-play
fallback must identify the teams. -/
def envFallback : Env :=
  { rotation_df :=
      [ { game_id := "A", team_id := 10, team_name := "Celtics", person_id := 1,
          player_first := "Al", player_last := "Ames", in_time_real := 0 },
        { game_id := "A", team_id := 20, team_name := "Knicks", person_id := 2,
          player_first := "Bo", player_last := "Beck", in_time_real := 7 } ],
    dates_df :=
      [ { game_id := "A", date := "20240110", team := "xxx", htm := "yyy", team_id := 99 } ],
    pbp := fun g =>
      if g == "A" then
        PbpFile.ok
          [ { homedescription := none, player1_team_id := some 20, score := none },
            { homedescription := some "Layup", player1_team_id := some 10, score := some "50 - 40" } ]
      else PbpFile.missing,
    outputExists := fun _ => true }

/-- `envFallback` with no pre-existing output files. -/
def envFallbackFresh : Env :=
  { envFallback with outputExists := fun _ => false }

/-! ### Helper lemmas -/

theorem mem_dedupFirstAux {α : Type} [DecidableEq α] (a : α) (l : List α) :
    ∀ seen : List α, a ∈ dedupFirstAux seen l ↔ a ∈ l ∧ a ∉ seen := by
  induction l with
  | nil => intro seen; simp [dedupFirstAux]
  | cons x xs ih =>
    intro seen
    by_cases hx : x ∈ seen
    · rw [dedupFirstAux, if_pos hx, ih, List.mem_cons]
      constructor
      · rintro ⟨h1, h2⟩; exact ⟨Or.inr h1, h2⟩
      · rintro ⟨h1 | h1, h2⟩
        · exact absurd (h1 ▸ hx) h2
        · exact ⟨h1, h2⟩
    · rw [dedupFirstAux, if_neg hx, List.mem_cons, List.mem_cons, ih]
      constructor
      · rintro (rfl | ⟨h1, h2⟩)
        · exact ⟨Or.inl rfl, hx⟩
        · exact ⟨Or.inr h1, fun hs => h2 (List.mem_cons_of_mem _ hs)⟩
      · rintro ⟨h1 | h1, h2⟩
        · exact Or.inl h1
        · by_cases hax : a = x
          · exact Or.inl hax
          · exact Or.inr ⟨h1, fun hc => (List.mem_cons.mp hc).elim hax h2⟩

theorem mem_dedupFirst {α : Type} [DecidableEq α] (a : α) (l : List α) :
    a ∈ dedupFirst l ↔ a ∈ l := by
  rw [dedupFirst, mem_dedupFirstAux]; simp

theorem runGames_mem {env : Env} {ids : List String} {g : String} {o : Outcome}
    (h : (g, o) ∈ (runGames env ids).1) : processGame env g = Except.ok o := by
  induction ids with
  | nil => simp [runGames] at h
  | cons x rest ih =>
    rw [runGames] at h
    cases hpg : processGame env x with
    | ok o' =>
      rw [hpg] at h
      simp only [List.mem_cons] at h
      rcases h with heq | hmem
      · obtain ⟨rfl, rfl⟩ := Prod.mk.injEq .. ▸ heq
        exact hpg
      · exact ih hmem
    | error e =>
      rw [hpg] at h
      simp at h

theorem runGames_total {env : Env} {ids : List String}
    (h : ∀ g ∈ ids, ∃ o, processGame env g = Except.ok o) :
    (runGames env ids).2 = none ∧ (runGames env ids).1.map Prod.fst = ids := by
  induction ids with
  | nil => simp [runGames]
  | cons x rest ih =>
    obtain ⟨o, ho⟩ := h x (List.mem_cons_self x rest)
    have hrest := ih (fun g hg => h g (List.mem_cons_of_mem _ hg))
    rw [runGames, ho]
    exact ⟨hrest.1, by simp [hrest.2]⟩

theorem mem_of_head?_eq_some {α : Type} {l : List α} {a : α}
    (h : l.head? = some a) : a ∈ l :=
  List.mem_of_mem_head? (by simp [h])

/-- Any team id that occurs in a rotation-row list is found by the
details lookup `game_rotations[game_rotations["TEAM_ID"] == tid].iloc[0]`. -/
theorem find?_teamId_of_mem {rots : List RotRow} {tid : Int}
    (h : tid ∈ rots.map (fun r => r.team_id)) :
    ∃ row, rots.find? (fun r => r.team_id == tid) = some row := by
  obtain ⟨r, hr, hrt⟩ := List.mem_map.mp h
  have : (rots.find? (fun r => r.team_id == tid)).isSome :=
    List.find?_isSome.mpr ⟨r, hr, by simp [hrt]⟩
  exact Option.isSome_iff_exists.mp this

theorem rotationsFor_update_pbp (env : Env) (f : String → PbpFile) (g : String) :
    rotationsFor { env with pbp := f } g = rotationsFor env g := rfl

theorem datesFor_update_pbp (env : Env) (f : String → PbpFile) (g : String) :
    datesFor { env with pbp := f } g = datesFor env g := rfl

/-- Inversion of the loop body at an emitted record: every branch condition
that leads to emission, together with the shape of the record. -/
theorem processGame_emitted_shape {env : Env} {game_id : String} {rec : GameRecord}
    (h : processGame env game_id = Except.ok (Outcome.emitted rec)) :
    env.outputExists game_id = false ∧
    (rotationsFor env game_id).isEmpty = false ∧
    ∃ r0 hid aid hdet adet d,
      (datesFor env game_id).head? = some r0 ∧
      resolveTeams env game_id (rotationsFor env game_id) (datesFor env game_id) =
        some (hid, aid) ∧
      ¬(hid = 0 ∨ aid = 0) ∧
      (rotationsFor env game_id).find? (fun r => r.team_id == hid) = some hdet ∧
      (rotationsFor env game_id).find? (fun r => r.team_id == aid) = some adet ∧
      dateReformat r0.date = some d ∧
      rec = buildRecord game_id d hdet adet hid aid
              (extractScore (env.pbp game_id)).1 (extractScore (env.pbp game_id)).2
              (rotationsFor env game_id) := by
  unfold processGame at h
  split at h
  · simp at h
  next hex =>
    split at h
    · simp at h
    next hrot =>
      split at h
      · simp at h
      next r0 hhead =>
        split at h
        · simp at h
        next hid aid hres =>
          split at h
          · simp at h
          next hzero =>
            split at h
            next hdet adet hfind1 hfind2 =>
              split at h
              · simp at h
              next d hdate =>
                refine ⟨by simpa using hex, by simpa using hrot,
                        r0, hid, aid, hdet, adet, d,
                        hhead, hres, hzero, hfind1, hfind2, hdate, ?_⟩
                injection h with h'
                injection h' with h''
                exact h''.symm
            next hother => simp at h

/-- Forward construction of the loop body at an emitted record: when every
branch condition on the way to emission holds, the game is emitted with the
assembled record. -/
theorem processGame_emit {env : Env} {game_id : String} {r0 : DatesRow}
    {hid aid : Int} {hdet adet : RotRow} {d : String}
    (h1 : env.outputExists game_id = false)
    (h2 : (rotationsFor env game_id).isEmpty = false)
    (h3 : (datesFor env game_id).head? = some r0)
    (h4 : resolveTeams env game_id (rotationsFor env game_id) (datesFor env game_id) =
            some (hid, aid))
    (h5 : ¬(hid = 0 ∨ aid = 0))
    (h6 : (rotationsFor env game_id).find? (fun r => r.team_id == hid) = some hdet)
    (h7 : (rotationsFor env game_id).find? (fun r => r.team_id == aid) = some adet)
    (h8 : dateReformat r0.date = some d) :
    processGame env game_id = Except.ok (Outcome.emitted
      (buildRecord game_id d hdet adet hid aid
        (extractScore (env.pbp game_id)).1 (extractScore (env.pbp game_id)).2
        (rotationsFor env game_id))) := by
  unfold processGame
  rw [h1]
  simp only [Bool.false_eq_true, if_false, h2, h3, h4, h6, h7, h8, if_neg h5]

/-- With every date string of the dates table parsable, no branch of the
loop body raises: each game yields an outcome. -/
theorem processGame_total_of_dates {env : Env}
    (hd : ∀ r ∈ env.dates_df, (dateReformat r.date).isSome) (game_id : String) :
    ∃ o, processGame env game_id = Except.ok o := by
  unfold processGame
  split
  · exact ⟨_, rfl⟩
  split
  · exact ⟨_, rfl⟩
  split
  · exact ⟨_, rfl⟩
  next r0 hhead =>
    split
    · exact ⟨_, rfl⟩
    next hid aid hres =>
      split
      · exact ⟨_, rfl⟩
      next hzero =>
        split
        next hdet adet hfind1 hfind2 =>
          split
          next hdate =>
            have hr0 : r0 ∈ env.dates_df :=
              List.mem_of_mem_filter (mem_of_head?_eq_some hhead)
            have := hd r0 hr0
            rw [hdate] at this
            simp at this
          next d hdate => exact ⟨_, rfl⟩
        next hother => exact ⟨_, rfl⟩

/-! ### Claim theorems -/

/-- C2: final-score extraction takes the last non-null value of the `SCORE`
column, splits it on `" - "`, parses both halves with `int`, assigns the
left half to the home score and the right half to the away score; the input
`"102 - 98"` yields home `102` and away `98`, and for any malformed score
string (a split of length other than two, or a half `int` rejects) both
scores remain `None` — `extractScore` is a total function, so no exception
escapes. -/
theorem claim_C2_score_extraction :
    extractScore (PbpFile.ok
      [ { homedescription := some "Jump ball", player1_team_id := some 10, score := none },
        { homedescription := none, player1_team_id := none, score := some "102 - 98" } ])
      = (some 102, some 98) ∧
    (∀ (rows : List PbpRow) (s : String),
      (rows.filterMap PbpRow.score).getLast? = some s →
      (∀ a b : String, pySplit s " - " = [a, b] → pyInt a = none ∨ pyInt b = none) →
      extractScore (PbpFile.ok rows) = (none, none)) := by
  constructor
  · decide
  · intro rows s hs hbad
    simp only [extractScore, hs]
    split
    next a b hsplit =>
      rcases hbad a b hsplit with h | h <;> simp [h]
    next => rfl

/-- C2 witness: a malformed score string (`"102-98"`, which does not split
on `" - "` into two parts) leaves both scores `None`. -/
theorem claim_C2_witness :
    extractScore (PbpFile.ok
      [ { homedescription := none, player1_team_id := none, score := some "102-98" } ])
      = (none, none) :=
  claim_C2_score_extraction.2 _ "102-98" rfl (by
    intro a b h
    have hps : pySplit "102-98" " - " = ["102-98"] := by decide
    rw [hps] at h
    have := congrArg List.length h
    simp at this)

/-- C6: a game id whose output file already exists is skipped before any
data lookup — the outcome is `skippedExists` whatever the data tables and
play-by-play files hold — so a re-run never overwrites or duplicates an
already-generated game file: no emitted outcome for that id appears in the
batch output. -/
theorem claim_C6_skip_existing (env : Env) (game_id : String)
    (h : env.outputExists game_id = true) :
    processGame env game_id = Except.ok Outcome.skippedExists ∧
    (∀ (rot2 : List RotRow) (dates2 : List DatesRow) (pbp2 : String → PbpFile),
      processGame { rotation_df := rot2, dates_df := dates2, pbp := pbp2,
                    outputExists := env.outputExists } game_id =
        Except.ok Outcome.skippedExists) ∧
    ∀ rec : GameRecord, (game_id, Outcome.emitted rec) ∉ (generate_game_files env).1 := by
  have hskip : ∀ env' : Env, env'.outputExists game_id = true →
      processGame env' game_id = Except.ok Outcome.skippedExists := by
    intro env' h'
    unfold processGame
    rw [h']
    simp
  refine ⟨hskip env h, fun rot2 dates2 pbp2 => hskip _ h, ?_⟩
  intro rec hmem
  have hp := runGames_mem hmem
  rw [hskip env h] at hp
  simp at hp

/-- C6 witness: in `envFallback` every output file already exists, and game
`"A"` is skipped with `skippedExists`. -/
theorem claim_C6_witness :
    processGame envFallback "A" = Except.ok Outcome.skippedExists :=
  (claim_C6_skip_existing envFallback "A" rfl).1

/-- C7: in every emitted record, a rotation row counts as a starter exactly
when its `IN_TIME_REAL` equals `0.0`, and the emitted `starter_on` value is
the comma-joined list of the `PERSON_ID`s of exactly those rows. -/
theorem claim_C7_starters (env : Env) (game_id : String) (rec : GameRecord)
    (h : processGame env game_id = Except.ok (Outcome.emitted rec)) :
    rec.starter_on = String.intercalate ","
      (((rotationsFor env game_id).filter (fun r => r.in_time_real == 0)).map
        (fun r => toString r.person_id)) ∧
    ∀ r : RotRow, r ∈ startersOf (rotationsFor env game_id) ↔
      (r ∈ rotationsFor env game_id ∧ r.in_time_real = 0) := by
  obtain ⟨_, _, r0, hid, aid, hdet, adet, d, hh, hres, hz, hf1, hf2, hd8, hrec⟩ :=
    processGame_emitted_shape h
  constructor
  · rw [hrec]; rfl
  · intro r
    rw [startersOf, List.mem_filter]
    simp

/-- C7 witness: the emitted record of `envMain` joins exactly the person ids
of the rows entering at time `0.0`. -/
theorem claim_C7_witness :
    recMain.starter_on = String.intercalate ","
      (((rotationsFor envMain "A").filter (fun r => r.in_time_real == 0)).map
        (fun r => toString r.person_id)) :=
  (claim_C7_starters envMain "A" recMain (by decide)).1

/-- C10: every player id in the emitted starters list is a key of the
emitted players map, because starters and the name map are built from the
same rotation rows of the game. -/
theorem claim_C10_starters_have_names (env : Env) (game_id : String) (rec : GameRecord)
    (h : processGame env game_id = Except.ok (Outcome.emitted rec)) :
    ∀ pid ∈ (startersOf (rotationsFor env game_id)).map (fun r => toString r.person_id),
      pid ∈ rec.players.map Prod.fst := by
  obtain ⟨_, _, r0, hid, aid, hdet, adet, d, hh, hres, hz, hf1, hf2, hd8, hrec⟩ :=
    processGame_emitted_shape h
  subst hrec
  intro pid hpid
  obtain ⟨r, hrmem, rfl⟩ := List.mem_map.mp hpid
  have hr' : r ∈ rotationsFor env game_id := by
    rw [startersOf] at hrmem
    exact List.mem_of_mem_filter hrmem
  show toString r.person_id ∈ (playersMap (rotationsFor env game_id)).map Prod.fst
  rw [playersMap, List.map_map]
  refine List.mem_map.mpr ⟨(r.person_id, r.player_first, r.player_last), ?_, rfl⟩
  rw [mem_dedupFirst]
  exact List.mem_map.mpr ⟨r, hr', rfl⟩

/-- C10 witness: starter `"1"` of `envMain` appears among the keys of the
emitted players map. -/
theorem claim_C10_witness : "1" ∈ recMain.players.map Prod.fst :=
  claim_C10_starters_have_names envMain "A" recMain (by decide) "1" (by decide)

/-- C1 counterexample: in `envBadDate` the first game's date string
(`"XDATE"`) raises an uncaught parse exception while its record is being
assembled, and the batch terminates: although the dates table lists the
two game ids `"A"` and `"B"`, no outcome at all is recorded — the
well-formed game `"B"` is never processed, so a per-game failure did
terminate the batch loop over the remaining game ids. -/
theorem claim_C1_counterexample :
    gameIds envBadDate = ["A", "B"] ∧
    (generate_game_files envBadDate).1 = [] ∧
    (generate_game_files envBadDate).2.isSome = true :=
  ⟨by decide, by decide, by decide⟩

/-- C1 amended: a missing file, empty frame, or parse exception inside the
guarded steps (team resolution, score extraction) is caught and only that
game is skipped; but a dates-table date string that `pd.to_datetime` cannot
parse as `YYYYMMDD` raises an uncaught exception that terminates the batch.
Hence, whenever every date string of the dates table is parsable, no
per-game failure terminates the loop: the batch finishes without error and
records one outcome per unique game id, in order. -/
theorem claim_C1_amended (env : Env)
    (hd : ∀ r ∈ env.dates_df, (dateReformat r.date).isSome) :
    (generate_game_files env).2 = none ∧
    (generate_game_files env).1.map Prod.fst = gameIds env :=
  runGames_total (fun g _ => processGame_total_of_dates hd g)

/-- C1 witness: the batch over `envMain`, whose date strings are all
well-formed, finishes without error and processes every game id. -/
theorem claim_C1_witness :
    (generate_game_files envMain).2 = none ∧
    (generate_game_files envMain).1.map Prod.fst = gameIds envMain :=
  claim_C1_amended envMain (by decide)

/-- C4: when the dates table has both a home row (`team == HTM`) and an away
row (`team != HTM`) for a game, team resolution returns exactly the dates
rows' team ids, for every possible rotation table and play-by-play
directory — the fallback is never consulted — and any record the loop emits
for that game carries exactly those two team ids (visible in the logo
URLs built from them). -/
theorem claim_C4_primary_over_fallback (env : Env) (game_id : String)
    (home_team_info away_team_info : DatesRow)
    (hh : (datesFor env game_id).find? (fun r => r.team == r.htm) = some home_team_info)
    (ha : (datesFor env game_id).find? (fun r => r.team != r.htm) = some away_team_info) :
    (∀ (rots : List RotRow) (pbp2 : String → PbpFile),
       resolveTeams { env with pbp := pbp2 } game_id rots (datesFor env game_id) =
         some (home_team_info.team_id, away_team_info.team_id)) ∧
    (∀ rec : GameRecord, processGame env game_id = Except.ok (Outcome.emitted rec) →
       rec.homeTeam.logo = logoUrl home_team_info.team_id ∧
       rec.awayTeam.logo = logoUrl away_team_info.team_id) := by
  have hprim : primaryTeams (datesFor env game_id) =
      some (home_team_info.team_id, away_team_info.team_id) := by
    unfold primaryTeams
    rw [hh, ha]
  constructor
  · intro rots pbp2
    unfold resolveTeams
    rw [hprim]
  · intro rec hrec
    obtain ⟨_, _, r0, hid, aid, hdet, adet, d, hhd, hres, hz, hf1, hf2, hd8, hrecEq⟩ :=
      processGame_emitted_shape hrec
    have heq : some (hid, aid) =
        some (home_team_info.team_id, away_team_info.team_id) := by
      rw [← hres]
      unfold resolveTeams
      rw [hprim]
    injection heq with heq'
    obtain ⟨rfl, rfl⟩ := Prod.mk.injEq .. ▸ heq'
    subst hrecEq
    exact ⟨rfl, rfl⟩

/-- C4 witness: for game `"A"` of `envMain`, whose dates rows resolve home
team 10 and away team 20, resolution returns `(10, 20)` even with an empty
rotation table and an empty play-by-play directory. -/
theorem claim_C4_witness :
    resolveTeams { envMain with pbp := fun _ => PbpFile.missing } "A" []
      (datesFor envMain "A") = some (10, 20) :=
  (claim_C4_primary_over_fallback envMain "A"
      { game_id := "A", date := "20240110", team := "BOS", htm := "BOS", team_id := 10 }
      { game_id := "A", date := "20240110", team := "NYK", htm := "BOS", team_id := 20 }
      (by decide) (by decide)).1 [] (fun _ => PbpFile.missing)

/-- C5: the primary path compares the `team` column to the `HTM` column;
whenever it raises a lookup error (modelled by `primaryTeams = none`),
resolution is exactly the play-by-play fallback, which takes the
`PLAYER1_TEAM_ID` of the first row with a present home description as the
home id and the first other distinct rotation team id as the away id; the
game is skipped (`none`) when fewer than two distinct team ids exist in the
rotation data or the inferred home id equals the away id, and the fallback
succeeds with `(home, away)` when the away id is non-zero and differs from
the home id. -/
theorem claim_C5_fallback_behavior (env : Env) (game_id : String)
    (rots : List RotRow) (dts : List DatesRow)
    (hprim : primaryTeams dts = none) :
    resolveTeams env game_id rots dts = fallbackTeams env game_id rots ∧
    ∀ (rows : List PbpRow) (home_event : PbpRow) (home_id : Int),
      env.pbp game_id = PbpFile.ok rows →
      rows.find? (fun r => r.homedescription.isSome) = some home_event →
      home_event.player1_team_id = some home_id →
      ((distinctTeamIds rots).length < 2 → fallbackTeams env game_id rots = none) ∧
      (∀ away_id : Int,
        2 ≤ (distinctTeamIds rots).length →
        ((distinctTeamIds rots).filter (fun t => t != home_id)).head? = some away_id →
        (home_id = away_id → fallbackTeams env game_id rots = none) ∧
        (away_id ≠ 0 → home_id ≠ away_id →
           fallbackTeams env game_id rots = some (home_id, away_id))) := by
  refine ⟨by unfold resolveTeams; rw [hprim], ?_⟩
  intro rows home_event home_id hpbp hfind hteam
  constructor
  · intro hlt
    have h2 : ¬ 2 ≤ (distinctTeamIds rots).length := by omega
    simp only [fallbackTeams, hpbp, hfind, hteam, if_neg h2]
  · intro away_id h2 hhead
    constructor
    · intro heq
      simp only [fallbackTeams, hpbp, hfind, hteam, if_pos h2, hhead]
      rw [if_pos (Or.inr heq)]
    · intro ha0 hne
      simp only [fallbackTeams, hpbp, hfind, hteam, if_pos h2, hhead]
      rw [if_neg ?_]
      rintro (hc | hc)
      · exact ha0 hc
      · exact hne hc

/-- C5 witness: the fallback of `envFallbackFresh` resolves home 10 (first
home-description row) and away 20 (the other rotation team id). -/
theorem claim_C5_witness :
    fallbackTeams envFallbackFresh "A" (rotationsFor envFallbackFresh "A") =
      some (10, 20) :=
  (((claim_C5_fallback_behavior envFallbackFresh "A"
        (rotationsFor envFallbackFresh "A") (datesFor envFallbackFresh "A")
        (by decide)).2
      [ { homedescription := none, player1_team_id := some 20, score := none },
        { homedescription := some "Layup", player1_team_id := some 10,
          score := some "50 - 40" } ]
      { homedescription := some "Layup", player1_team_id := some 10,
        score := some "50 - 40" }
      10 (by decide) (by decide) rfl).2
    20 (by decide) (by decide)).2 (by decide) (by decide)

/-- C3 counterexample: in `envNoDates`, game `"A"` is absent from the dates
table while it has two distinct team ids in its rotation data and a
play-by-play file with a home-description row; yet the batch processes only
the game ids of the dates table, so no record for `"A"` is ever emitted —
the run finishes having processed exactly `["B"]`. -/
theorem claim_C3_counterexample :
    envNoDates.dates_df.filter (fun r => r.game_id == "A") = [] ∧
    2 ≤ (distinctTeamIds (rotationsFor envNoDates "A")).length ∧
    (∃ rows, envNoDates.pbp "A" = PbpFile.ok rows ∧
       (rows.find? (fun r => r.homedescription.isSome)).isSome = true) ∧
    (generate_game_files envNoDates).1.map Prod.fst = ["B"] ∧
    (generate_game_files envNoDates).2 = none :=
  ⟨by decide, by decide, ⟨_, rfl, by decide⟩, by decide, by decide⟩

/-- C3 amended: for every game id *present in the dates table* whose primary
(`team == HTM`) lookup fails, that has at least two distinct team ids in its
rotation data and a readable play-by-play file whose first home-description
row carries a parsable, non-zero team id — one that also occurs in the
rotation rows, with the first other distinct rotation team id non-zero and
different from it — and whose output file does not yet exist and whose date
string is a valid `YYYYMMDD` date, the assembler infers home/away via the
fallback without error and emits a record for that game. -/
theorem claim_C3_amended (env : Env) (game_id : String) (r0 : DatesRow)
    (rows : List PbpRow) (home_event : PbpRow) (home_id away_id : Int)
    (home_team_details : RotRow) (d : String)
    (hex : env.outputExists game_id = false)
    (hne : (rotationsFor env game_id).isEmpty = false)
    (hhead : (datesFor env game_id).head? = some r0)
    (hprim : primaryTeams (datesFor env game_id) = none)
    (hpbp : env.pbp game_id = PbpFile.ok rows)
    (hfind : rows.find? (fun r => r.homedescription.isSome) = some home_event)
    (hteam : home_event.player1_team_id = some home_id)
    (h2 : 2 ≤ (distinctTeamIds (rotationsFor env game_id)).length)
    (hhd : ((distinctTeamIds (rotationsFor env game_id)).filter
              (fun t => t != home_id)).head? = some away_id)
    (hh0 : home_id ≠ 0) (ha0 : away_id ≠ 0) (hha : home_id ≠ away_id)
    (hfl : (rotationsFor env game_id).find? (fun r => r.team_id == home_id) =
             some home_team_details)
    (hdate : dateReformat r0.date = some d) :
    ∃ rec, processGame env game_id = Except.ok (Outcome.emitted rec) := by
  have haway_mem : away_id ∈ (rotationsFor env game_id).map (fun r => r.team_id) := by
    have hm1 : away_id ∈ (distinctTeamIds (rotationsFor env game_id)).filter
        (fun t => t != home_id) := mem_of_head?_eq_some hhd
    have hm2 : away_id ∈ distinctTeamIds (rotationsFor env game_id) :=
      List.mem_of_mem_filter hm1
    rw [distinctTeamIds, mem_dedupFirst] at hm2
    exact hm2
  obtain ⟨away_team_details, hfa⟩ := find?_teamId_of_mem haway_mem
  have hres : resolveTeams env game_id (rotationsFor env game_id)
      (datesFor env game_id) = some (home_id, away_id) := by
    unfold resolveTeams
    rw [hprim]
    simp only [fallbackTeams, hpbp, hfind, hteam, if_pos h2, hhd]
    rw [if_neg ?_]
    rintro (hc | hc)
    · exact ha0 hc
    · exact hha hc
  have hz : ¬(home_id = 0 ∨ away_id = 0) := by
    rintro (hc | hc)
    · exact hh0 hc
    · exact ha0 hc
  exact ⟨_, processGame_emit hex hne hhead hres hz hfl hfa hdate⟩

/-- C3 witness: game `"A"` of `envFallbackFresh` is in the dates table, its
primary lookup fails, and the fallback emits a record. -/
theorem claim_C3_witness :
    ∃ rec, processGame envFallbackFresh "A" = Except.ok (Outcome.emitted rec) :=
  claim_C3_amended envFallbackFresh "A"
    { game_id := "A", date := "20240110", team := "xxx", htm := "yyy", team_id := 99 }
    [ { homedescription := none, player1_team_id := some 20, score := none },
      { homedescription := some "Layup", player1_team_id := some 10,
        score := some "50 - 40" } ]
    { homedescription := some "Layup", player1_team_id := some 10,
      score := some "50 - 40" }
    10 20
    { game_id := "A", team_id := 10, team_name := "Celtics", person_id := 1,
      player_first := "Al", player_last := "Ames", in_time_real := 0 }
    "2024-01-10"
    (by decide) (by decide) (by decide) (by decide) (by decide) (by decide) rfl
    (by decide) (by decide) (by decide) (by decide) (by decide) (by decide)
    (by decide)

/-- C8: every emitted record has the fixed shape of the `game_output` dict —
the fields of `GameRecord`, which are exactly the keys
`homeTeam{name,score,logo}`, `awayTeam{name,score,logo}`, `game_id`, `date`,
`status`, `players`, `starter_on` — with `status` the constant `"Final"`,
`game_id` the processed game id, and `date` obtained by reformatting the
dates-table date string of the game's first dates row from `YYYYMMDD`
(eight digits) to `YYYY-MM-DD` (dashes inserted after year and month).
(The JSON file written per game at `output_dir/{game_id}.json` is modelled
as this record keyed by game id; encoding and indentation are outside the
model.) -/
theorem claim_C8_record_schema (env : Env) (game_id : String) (rec : GameRecord)
    (h : processGame env game_id = Except.ok (Outcome.emitted rec)) :
    rec.status = "Final" ∧
    rec.game_id = game_id ∧
    (∃ r0, (datesFor env game_id).head? = some r0 ∧
       dateReformat r0.date = some rec.date) ∧
    (∀ s t : String, dateReformat s = some t →
       s.length = 8 ∧ s.data.all Char.isDigit = true ∧
       t = String.mk (s.data.take 4 ++ '-' :: (s.data.drop 4).take 2 ++
             '-' :: s.data.drop 6)) := by
  obtain ⟨_, _, r0, hid, aid, hdet, adet, d, hh, hres, hz, hf1, hf2, hd8, hrec⟩ :=
    processGame_emitted_shape h
  subst hrec
  refine ⟨rfl, rfl, ⟨r0, hh, hd8⟩, ?_⟩
  intro s t hst
  simp only [dateReformat] at hst
  split at hst
  next hgood =>
    split at hst
    next hcal =>
      injection hst with hst'
      exact ⟨hgood.1, hgood.2, hst'.symm⟩
    next => simp at hst
  next => simp at hst

/-- C8 witness: the record emitted for game `"A"` of `envMain` has status
`"Final"`, carries the game id, and its date comes from reformatting the
dates row. -/
theorem claim_C8_witness :
    recMain.status = "Final" ∧ recMain.game_id = "A" :=
  ⟨(claim_C8_record_schema envMain "A" recMain (by decide)).1,
   (claim_C8_record_schema envMain "A" recMain (by decide)).2.1⟩

/-- C9: when team resolution succeeds on the primary dates-table path, a
missing or unreadable play-by-play file affects only score extraction
(whose exceptions are caught): if the game would be emitted with some
play-by-play directory in place, it is still emitted with the actual
(missing/unreadable) one, with the same record except that both scores are
`None`. -/
theorem claim_C9_missing_pbp_still_emits (env : Env) (pbp2 : String → PbpFile)
    (game_id : String) (p : Int × Int) (rec : GameRecord)
    (hprim : primaryTeams (datesFor env game_id) = some p)
    (hmiss : env.pbp game_id = PbpFile.missing ∨ env.pbp game_id = PbpFile.unreadable)
    (hrec : processGame { env with pbp := pbp2 } game_id =
              Except.ok (Outcome.emitted rec)) :
    processGame env game_id = Except.ok (Outcome.emitted
      { rec with homeTeam := { rec.homeTeam with score := none },
                 awayTeam := { rec.awayTeam with score := none } }) := by
  obtain ⟨hex, hne, r0, hid, aid, hdet, adet, d, hh, hres, hz, hf1, hf2, hd8, hrecEq⟩ :=
    processGame_emitted_shape hrec
  have hex2 : env.outputExists game_id = false := hex
  have hne2 : (rotationsFor env game_id).isEmpty = false := hne
  have hh2 : (datesFor env game_id).head? = some r0 := hh
  have hf1b : (rotationsFor env game_id).find? (fun r => r.team_id == hid) =
      some hdet := hf1
  have hf2b : (rotationsFor env game_id).find? (fun r => r.team_id == aid) =
      some adet := hf2
  have hres2 : resolveTeams env game_id (rotationsFor env game_id)
      (datesFor env game_id) = some (hid, aid) := by
    have h1 : resolveTeams { env with pbp := pbp2 } game_id
        (rotationsFor env game_id) (datesFor env game_id) = some (hid, aid) := hres
    unfold resolveTeams at h1 ⊢
    rw [hprim] at h1 ⊢
    exact h1
  have hgoal := processGame_emit hex2 hne2 hh2 hres2 hz hf1b hf2b hd8
  have hscore : extractScore (env.pbp game_id) = (none, none) := by
    rcases hmiss with hm | hm <;> rw [hm] <;> rfl
  rw [hscore] at hgoal
  subst hrecEq
  exact hgoal

/-- C9 witness: game `"A"` of `envMainNoPbp` (primary resolution, empty
play-by-play directory) is still emitted, with both scores `None`. -/
theorem claim_C9_witness :
    processGame envMainNoPbp "A" = Except.ok (Outcome.emitted
      { recMain with homeTeam := { recMain.homeTeam with score := none },
                     awayTeam := { recMain.awayTeam with score := none } }) :=
  claim_C9_missing_pbp_still_emits envMainNoPbp envMain.pbp "A" (10, 20) recMain
    (by decide) (Or.inl rfl) (by decide)
